import Mathlib

/-!
# Verification of `node-red-contrib-performance-monitor` (backend, v1.1.0)

Shallow embedding of `performance-monitor.js` (the v1.1.0 backend: container
detection, resource samplers, metrics aggregator with cache, settings store)
and proofs of the specified properties.

Modelling conventions:
* JavaScript numbers are modelled as exact `Int`/`Rat` values.  The program
  manipulates timestamps, byte counts and small ratios, far below the range
  where IEEE-754 doubles diverge from exact arithmetic on the claims below.
* `parseInt(s, 10)` is modelled as `jsParseInt : String → Option Int`, with
  `none` playing the role of `NaN`.  Every use of a parsed value in the
  source is guarded by a `> 0` comparison (which `NaN` fails), except the
  cgroup *accounting* files read in `getContainerMemory`; those files are
  kernel-generated decimal counters and are modelled as holding the natural
  number the source's `parseInt` yields.
* Filesystem reads never throw in the model; a missing file is `none`.
  The source wraps all cgroup reads in try/catch only to guard against
  exotic read races, which the model does not exhibit.
-/

namespace PerfMon

/-- JavaScript `Math.round`: round half towards positive infinity. -/
def jsRound (q : Rat) : Int := ⌊q + 1 / 2⌋

/-- JavaScript `String.prototype.trim`, via the character list (kernel-friendly). -/
def jsTrim (s : String) : String :=
  ⟨(((s.data.dropWhile Char.isWhitespace).reverse.dropWhile Char.isWhitespace).reverse)⟩

/-- JavaScript `String.prototype.split(sep)` for a single-character separator. -/
def jsSplitChar (sep : Char) (s : String) : List String :=
  (s.data.splitOn sep).map List.asString

/-- Digit accumulator for `jsParseInt`. -/
def digitsVal (ds : List Char) : Nat :=
  ds.foldl (fun a c => a * 10 + (c.toNat - 48)) 0

/-- JavaScript `parseInt(s, 10)`: skip leading whitespace, optional sign,
longest prefix of decimal digits; `none` models `NaN` (no digits). -/
def jsParseInt (s : String) : Option Int :=
  let cs := s.data.dropWhile Char.isWhitespace
  let (sign, cs') : Int × List Char :=
    match cs with
    | '-' :: rest => (-1, rest)
    | '+' :: rest => (1, rest)
    | _ => (1, cs)
  let ds := cs'.takeWhile Char.isDigit
  if ds.isEmpty then none else some (sign * (digitsVal ds : Int))

/-- JavaScript truthiness of a number held in an `Option` (where `none` is
`null`/`NaN`): `!x` is true exactly for `null`, `NaN` and `0`. -/
def jsTruthyOptInt : Option Int → Bool
  | none => false
  | some v => v != 0

/-- JavaScript `a || b` for an optionally-`NaN`/`null` number `a`:
returns `a` unless it is falsy. -/
def jsOrInt (a : Option Int) (b : Int) : Int :=
  match a with
  | some v => if v = 0 then b else v
  | none => b


/-! ## Container / cgroup detection (`detectContainerEnvironment`) -/

/-- Contents of the cgroup control files and container marker files probed by
the source.  `none` models a missing file (`fs.existsSync` false).  The two
current-usage accounting files (`memory.current`, `memory.usage_in_bytes`)
are kernel-generated decimal counters; they are modelled as holding the
natural number the source's `parseInt` yields on their content. -/
structure CgroupFs where
  v2MemoryMax : Option String
  v2MemoryCurrent : Option Nat
  v2CpuMax : Option String
  v1MemoryLimit : Option String
  v1MemoryUsage : Option Nat
  v1CpuQuota : Option String
  v1CpuPeriod : Option String
  dockerEnv : Bool
  k8sServiceAccount : Bool
  deriving Repr, DecidableEq

/-- Parsed `vm_stat` output on the darwin path: each field is the number the
corresponding regular expression captures, `none` when the pattern is absent
(the source then falls back to `4096` for the page size and `0` for counts). -/
structure VmStat where
  pageSize : Option Nat
  freePages : Option Nat
  inactivePages : Option Nat
  speculativePages : Option Nat
  deriving Repr, DecidableEq

/-- Host facts read through `os.*` and the platform-specific memory probes.
`memAvailableKb` is the number matched by the `MemAvailable` regular
expression on `/proc/meminfo` (`none`: file missing or no match). -/
structure Host where
  platform : String
  totalmem : Nat
  freemem : Nat
  memAvailableKb : Option Nat
  vmStat : Option VmStat
  deriving Repr, DecidableEq

/-- Result record of `detectContainerEnvironment` (source lines 224-229):
`cgroupVersion` is `null` / `1` / `2`, limits are `null` or a number. -/
structure ContainerInfo where
  isContainerized : Bool
  cgroupVersion : Option Nat
  memoryLimit : Option Int
  cpuLimit : Option Rat
  deriving Repr, DecidableEq

/-- Initial `containerInfo` value: not containerized, no version, no limits. -/
def ContainerInfo.unconfined : ContainerInfo :=
  ⟨false, none, none, none⟩

/-- Memory step of the cgroup v2 branch (source lines 239-250): parse
`memory.max` (the literal `max` means no limit; a parsed number is a genuine
limit only when `0 < limit < os.totalmem()`). -/
def detectV2Memory (host : Host) (memMaxRaw : String) : ContainerInfo :=
  let memMax := jsTrim memMaxRaw
  if memMax ≠ "max" then
    match jsParseInt memMax with
    | some memLimit =>
      if 0 < memLimit ∧ memLimit < (host.totalmem : Int) then
        ⟨true, some 2, some memLimit, none⟩
      else ContainerInfo.unconfined
    | none => ContainerInfo.unconfined
  else ContainerInfo.unconfined

/-- CPU step of the cgroup v2 branch (source lines 253-265): parse `cpu.max`
(format `"<quota> <period>"`, quota token `max` means no limit); on a
positive quota and period, set `cpuLimit = quota / period` and mark the
process containerized, touching no other field. -/
def applyV2Cpu (fs : CgroupFs) (info : ContainerInfo) : ContainerInfo :=
  match fs.v2CpuMax with
  | some cpuMaxRaw =>
    let parts := jsSplitChar ' ' (jsTrim cpuMaxRaw)
    if parts.head? ≠ some "max" ∧ parts.length = 2 then
      match jsParseInt (parts.head?.getD ""), jsParseInt ((parts.get? 1).getD "") with
      | some quota, some period =>
        if 0 < quota ∧ 0 < period then
          { info with
              cpuLimit := some ((quota : Rat) / (period : Rat)),
              isContainerized := true }
        else info
      | _, _ => info
    else info
  | none => info

/-- Cgroup v2 branch of `detectContainerEnvironment` (source lines 238-266):
the memory probe followed by the CPU probe. -/
def detectContainerV2 (fs : CgroupFs) (host : Host) (memMaxRaw : String) : ContainerInfo :=
  applyV2Cpu fs (detectV2Memory host memMaxRaw)

/-- The cgroup v1 "no limit" sentinel used by the source (line 272). -/
def MAX_MEMORY_LIMIT : Int := 9223372036854771712

/-- Memory step of the cgroup v1 branch (source lines 269-277): parse
`memory.limit_in_bytes`; values at or above the max-int64-like sentinel mean
no limit. -/
def detectV1Memory (host : Host) (memLimitRaw : String) : ContainerInfo :=
  match jsParseInt (jsTrim memLimitRaw) with
  | some memLimit =>
    if 0 < memLimit ∧ memLimit < MAX_MEMORY_LIMIT ∧ memLimit < (host.totalmem : Int) then
      ⟨true, some 1, some memLimit, none⟩
    else ContainerInfo.unconfined
  | none => ContainerInfo.unconfined

/-- CPU step of the cgroup v1 branch (source lines 280-289): parse
`cpu.cfs_quota_us` / `cpu.cfs_period_us` when both exist (a quota of `-1`,
and generally any quota that is not positive, means no limit), touching no
other field. -/
def applyV1Cpu (fs : CgroupFs) (info : ContainerInfo) : ContainerInfo :=
  match fs.v1CpuQuota, fs.v1CpuPeriod with
  | some quotaRaw, some periodRaw =>
    match jsParseInt (jsTrim quotaRaw), jsParseInt (jsTrim periodRaw) with
    | some quota, some period =>
      if 0 < quota ∧ 0 < period then
        { info with
            cpuLimit := some ((quota : Rat) / (period : Rat)),
            isContainerized := true }
      else info
    | _, _ => info
  | _, _ => info

/-- Cgroup v1 branch of `detectContainerEnvironment` (source lines 268-289):
the memory probe followed by the CPU probe. -/
def detectContainerV1 (fs : CgroupFs) (host : Host) (memLimitRaw : String) : ContainerInfo :=
  applyV1Cpu fs (detectV1Memory host memLimitRaw)

/-- Marker-file fallback (source lines 293-297): when the cgroup probes
produced no signal, the presence of `/.dockerenv` or the Kubernetes service
account directory still marks the process as containerized (without limits). -/
def applyMarkers (fs : CgroupFs) (info : ContainerInfo) : ContainerInfo :=
  if !info.isContainerized ∧ (fs.dockerEnv ∨ fs.k8sServiceAccount) then
    { info with isContainerized := true }
  else info

/-- Detection of the container environment (source lines 219-303), as the
pure computation memoized by the module-level `containerInfo` cache: only on
Linux, try the cgroup v2 hierarchy first, else v1; then the marker-file
fallback. -/
def detectContainerEnvironment (fs : CgroupFs) (host : Host) : ContainerInfo :=
  if host.platform ≠ "linux" then ContainerInfo.unconfined
  else
    applyMarkers fs
      (match fs.v2MemoryMax with
      | some memMaxRaw => detectContainerV2 fs host memMaxRaw
      | none =>
        match fs.v1MemoryLimit with
        | some memLimitRaw => detectContainerV1 fs host memLimitRaw
        | none => ContainerInfo.unconfined)

/-! ## Memory samplers (`getContainerMemory`, `getSystemMemory`) -/

/-- Memory block `{total, used, free, available, usedPercent}` as returned by
`getContainerMemory` (source lines 325-331) and `getSystemMemory` (470-476). -/
structure MemBlock where
  total : Int
  used : Int
  free : Int
  available : Int
  usedPercent : Rat
  deriving Repr, DecidableEq

/-- Container memory sampler (source lines 309-335): `null` unless detection
reports a containerized process with a truthy memory limit; the current usage
is read from the accounting file of the matching cgroup version (0 when that
file is missing). -/
def getContainerMemory (fs : CgroupFs) (host : Host) : Option MemBlock :=
  let info := detectContainerEnvironment fs host
  if !info.isContainerized ∨ !(jsTruthyOptInt info.memoryLimit) then none
  else
    match info.memoryLimit with
    | none => none
    | some limit =>
      let currentUsage : Int :=
        if info.cgroupVersion = some 2 then (fs.v2MemoryCurrent.getD 0 : Nat)
        else if info.cgroupVersion = some 1 then (fs.v1MemoryUsage.getD 0 : Nat)
        else 0
      some
        { total := limit
          used := currentUsage
          free := max 0 (limit - currentUsage)
          available := max 0 (limit - currentUsage)
          usedPercent := (jsRound ((currentUsage : Rat) / (limit : Rat) * 1000) : Rat) / 10 }

/-- Container CPU limit accessor (source lines 341-344): `info.cpuLimit || null`. -/
def getContainerCpuLimit (fs : CgroupFs) (host : Host) : Option Rat :=
  match (detectContainerEnvironment fs host).cpuLimit with
  | some q => if q = 0 then none else some q
  | none => none

/-- System memory sampler (source lines 427-477): prefer container memory;
otherwise start from `os.totalmem()` / `os.freemem()`, refine `freeMem` on
Linux from `MemAvailable` and on darwin from `vm_stat` page counts, and
derive `used = max(0, total - free)`.  In the source the return statement
supplies `freeMem` for both the `free` and the `available` fields (the
`availableMem` variable always equals `freeMem` at that point). -/
def getSystemMemory (fs : CgroupFs) (host : Host) : MemBlock :=
  match getContainerMemory fs host with
  | some containerMem => containerMem
  | none =>
    let totalMem : Int := host.totalmem
    let freeMem : Int :=
      if host.platform = "linux" then
        match host.memAvailableKb with
        | some kb => (kb : Int) * 1024
        | none => host.freemem
      else if host.platform = "darwin" then
        match host.vmStat with
        | some vm =>
          let pageSize := vm.pageSize.getD 4096
          ((vm.freePages.getD 0 + vm.inactivePages.getD 0 + vm.speculativePages.getD 0)
            * pageSize : Nat)
        | none => host.freemem
      else host.freemem
    let usedMem := max 0 (totalMem - freeMem)
    { total := totalMem
      used := usedMem
      free := freeMem
      available := freeMem
      usedPercent := (jsRound ((usedMem : Rat) / (totalMem : Rat) * 1000) : Rat) / 10 }

/-! ## CPU samplers (`getCpuPercent`, `getSystemCpuUsage`, `getCpuInfo`) -/

/-- Cumulative process counters at the moment of a call: `process.cpuUsage()`
user/system microseconds and the `process.hrtime.bigint()` nanosecond clock.
The source reads these twice per call (once for the diff, once to reset the
baseline); no time passes between the reads in the model. -/
structure CpuWorld where
  user : Nat
  system : Nat
  timeNs : Nat
  deriving Repr, DecidableEq

/-- CpuBaseline state: `lastCpuUsage` (user/system) and `lastCpuTime`
(source lines 358-359). -/
structure CpuBaseline where
  lastUser : Nat
  lastSystem : Nat
  lastTimeNs : Nat
  deriving Repr, DecidableEq

/-- The `elapsedMs` value of `getCpuPercent` (source line 381):
`Number(currentTime - lastCpuTime) / 1e6`. -/
def elapsedMsOf (w : CpuWorld) (b : CpuBaseline) : Rat :=
  ((((w.timeNs : Int) - (b.lastTimeNs : Int)) : Int) : Rat) / 1000000

/-- The `totalCpuMicros` value of `getCpuPercent` (source line 389): the
user+system diff that `process.cpuUsage(lastCpuUsage)` reports. -/
def totalCpuMicrosOf (w : CpuWorld) (b : CpuBaseline) : Rat :=
  ((((w.user : Int) - (b.lastUser : Int)) + ((w.system : Int) - (b.lastSystem : Int)) : Int) : Rat)

/-- The unclamped `cpuPercent` value of `getCpuPercent` (source line 390). -/
def rawCpuPercent (w : CpuWorld) (b : CpuBaseline) : Rat :=
  totalCpuMicrosOf w b / 1000 / elapsedMsOf w b * 100

/-- Process CPU sampler (source lines 376-398): diff the cumulative CPU time
against the baseline, divide by the elapsed wall milliseconds, clamp into
[0, 100]; return 0 without touching the baseline when no wall time elapsed. -/
def getCpuPercent (w : CpuWorld) (b : CpuBaseline) : Rat × CpuBaseline :=
  if elapsedMsOf w b ≤ 0 then (0, b)
  else (min (max (rawCpuPercent w b) 0) 100, ⟨w.user, w.system, w.timeNs⟩)

/-- Per-core tick counters of `os.cpus()[i].times`. -/
structure CpuTimes where
  user : Nat
  nice : Nat
  sys : Nat
  idle : Nat
  irq : Nat
  deriving Repr, DecidableEq

/-- One entry of `os.cpus()`. -/
structure CpuCore where
  model : String
  speed : Nat
  times : CpuTimes
  deriving Repr, DecidableEq

/-- Sum over every key of `cpu.times`. -/
def CpuTimes.total (t : CpuTimes) : Nat :=
  t.user + t.nice + t.sys + t.idle + t.irq

/-- Host-wide CPU sampler (source lines 544-573): diff summed idle/total
ticks against `lastCpuTimes` (0 on the very first call), clamp into [0, 100],
and update the tick baseline unconditionally. -/
def getSystemCpuUsage (cpus : List CpuCore) (last : Option (Nat × Nat)) :
    Rat × Option (Nat × Nat) :=
  let totalIdle : Nat := (cpus.map (fun c => c.times.idle)).sum
  let totalTick : Nat := (cpus.map (fun c => c.times.total)).sum
  let percentage : Rat :=
    match last with
    | some (lastIdle, lastTotal) =>
      let idleDifference : Int := (totalIdle : Int) - lastIdle
      let totalDifference : Int := (totalTick : Int) - lastTotal
      if 0 < totalDifference then
        100 - 100 * (idleDifference : Rat) / (totalDifference : Rat)
      else 0
    | none => 0
  (max 0 (min percentage 100), some (totalIdle, totalTick))

/-- Result of `getCpuInfo` (source lines 528-538). -/
structure CpuInfo where
  cores : Nat
  effectiveCores : Rat
  model : String
  speed : Nat
  deriving Repr, DecidableEq

/-- CPU topology sampler (source lines 528-538): logical core count,
container-aware effective cores (`containerCpuLimit || cpus.length`), and the
first core's model/speed with `"Unknown"` / `0` fallbacks. -/
def getCpuInfo (cpus : List CpuCore) (fs : CgroupFs) (host : Host) : CpuInfo :=
  let containerCpuLimit := getContainerCpuLimit fs host
  { cores := cpus.length
    effectiveCores :=
      match containerCpuLimit with
      | some q => if q = 0 then (cpus.length : Rat) else q
      | none => (cpus.length : Rat)
    model := match cpus.head? with | some c => c.model | none => "Unknown"
    speed := match cpus.head? with | some c => c.speed | none => 0 }

/-! ## Disk sampler (`getDiskUsage`) -/

/-- Successful `fs.statfs` callback payload. -/
structure StatFsResult where
  blocks : Nat
  bsize : Nat
  bfree : Nat
  bavail : Nat
  deriving Repr, DecidableEq

/-- Disk environment: whether `fs.statfs` exists at all (Node < 18.15 or
serverless runtimes), and the callback outcome (`none` models the error
callback). -/
structure DiskEnv where
  statfsAvailable : Bool
  statfs : Option StatFsResult
  deriving Repr, DecidableEq

/-- Disk block as returned by `getDiskUsage`.  The zeroed `defaultDisk`
object of the source has no `free` key at all, so `free` is an `Option`
(`none` = key absent). -/
structure DiskInfo where
  mount : String
  total : Int
  used : Int
  free : Option Int
  available : Int
  usedPercent : Rat
  deriving Repr, DecidableEq

/-- Zeroed fallback `defaultDisk` (source lines 484-490). -/
def defaultDisk : DiskInfo :=
  { mount := "/", total := 0, used := 0, free := none, available := 0, usedPercent := 0 }

/-- Disk sampler (source lines 483-521): zeroed default when `fs.statfs` is
missing or errors; otherwise query `/` (or `C:\` on win32) and derive the
totals from block counts, guarding the percentage against `total = 0`.  Note
that the returned `free` field is assigned the `available` value. -/
def getDiskUsage (host : Host) (env : DiskEnv) : DiskInfo :=
  if !env.statfsAvailable then defaultDisk
  else
    let mountPoint := if host.platform = "win32" then "C:\\" else "/"
    match env.statfs with
    | none => defaultDisk
    | some stats =>
      let total : Int := (stats.blocks * stats.bsize : Nat)
      let free : Int := (stats.bfree * stats.bsize : Nat)
      let available : Int := (stats.bavail * stats.bsize : Nat)
      let used : Int := total - free
      { mount := mountPoint
        total := total
        used := used
        free := some available
        available := available
        usedPercent :=
          if 0 < total then (jsRound ((used : Rat) / (total : Rat) * 1000) : Rat) / 10
          else 0 }

/-! ## Settings store (defaults at source lines 348-355, update handler at 685-705) -/

/-- The `settings` record. -/
structure Settings where
  refreshInterval : Int
  paneFontSize : Int
  paneFontFamily : String
  hudSize : String
  hudTheme : String
  hideHud : Bool
  deriving Repr, DecidableEq

/-- Default settings (source lines 348-355). -/
def defaultSettings : Settings :=
  { refreshInterval := 2000
    paneFontSize := 12
    paneFontFamily := "Helvetica Neue"
    hudSize := "Normal"
    hudTheme := "classic"
    hideHud := false }

/-- Request body of `POST /performance-monitor/settings`: each recognized
field is `none` when the key is absent (`=== undefined` in the source).
String-valued JSON is modelled directly; for `hideHud` only the truthiness of
the supplied value matters (`!!req.body.hideHud`), so the field carries that
boolean.  `unrecognized` carries any other keys of the body; the handler
never reads them. -/
structure ReqBody where
  refreshInterval : Option String
  paneFontSize : Option String
  paneFontFamily : Option String
  hudSize : Option String
  hudTheme : Option String
  hideHud : Option Bool
  unrecognized : List (String × String)
  deriving Repr, DecidableEq

/-- Body with no recognized fields. -/
def ReqBody.onlyUnrecognized (extra : List (String × String)) : ReqBody :=
  ⟨none, none, none, none, none, none, extra⟩

/-- Settings update handler (source lines 685-705): each present field is
coerced independently (`parseInt(x) || default` for the numeric ones,
`x || default` for the string ones, `!!x` for the flag); absent and
unrecognized fields leave the stored record untouched. -/
def updateSettings (body : ReqBody) (s : Settings) : Settings :=
  let s :=
    match body.refreshInterval with
    | some v => { s with refreshInterval := jsOrInt (jsParseInt v) 2000 }
    | none => s
  let s :=
    match body.paneFontSize with
    | some v => { s with paneFontSize := jsOrInt (jsParseInt v) 12 }
    | none => s
  let s :=
    match body.paneFontFamily with
    | some v => { s with paneFontFamily := if v = "" then "Helvetica Neue" else v }
    | none => s
  let s :=
    match body.hudSize with
    | some v => { s with hudSize := if v = "" then "Normal" else v }
    | none => s
  let s :=
    match body.hudTheme with
    | some v => { s with hudTheme := if v = "" then "classic" else v }
    | none => s
  match body.hideHud with
  | some v => { s with hideHud := v }
  | none => s

/-! ## Metrics aggregator (`collectMetrics`, source lines 579-657) -/

/-- Payload of `process.memoryUsage()`; `arrayBuffers` is absent on older
Node.js versions (the source applies `|| 0`). -/
structure ProcMem where
  rss : Nat
  heapTotal : Nat
  heapUsed : Nat
  external : Nat
  arrayBuffers : Option Nat
  deriving Repr, DecidableEq

/-- The `system.cpu` sub-record of a snapshot. -/
structure SnapshotCpu where
  percent : Rat
  cores : Nat
  effectiveCores : Rat
  model : String
  speed : Nat
  deriving Repr, DecidableEq

/-- The `system` sub-record of a snapshot. -/
structure SnapshotSystem where
  platform : String
  arch : String
  nodeVersion : String
  cpu : SnapshotCpu
  memory : MemBlock
  disk : DiskInfo
  uptime : Rat
  deriving Repr, DecidableEq

/-- The `nodeRed.memory` sub-record of a snapshot. -/
structure SnapshotProcMem where
  rss : Nat
  heapTotal : Nat
  heapUsed : Nat
  external : Nat
  arrayBuffers : Nat
  percentOfSystem : Rat
  deriving Repr, DecidableEq

/-- The `nodeRed` sub-record of a snapshot. -/
structure SnapshotNodeRed where
  pid : Nat
  uptime : Rat
  cpu : Rat
  memory : SnapshotProcMem
  eventLoopLag : Rat
  deriving Repr, DecidableEq

/-- A metrics snapshot (source lines 612-644). -/
structure Metrics where
  timestamp : Int
  isContainerized : Bool
  system : SnapshotSystem
  nodeRed : SnapshotNodeRed
  deriving Repr, DecidableEq

/-- Result of one `collectMetrics` call: a snapshot, or the minimal
`{error: message}` object produced on a failed call with an empty cache. -/
inductive CollectResult where
  | metrics (m : Metrics)
  | error (message : String)
  deriving Repr, DecidableEq

/-- Mutable module state threaded through `collectMetrics`: the settings
record, the CPU baselines, the lag gauge and the single-slot metrics cache
(`metricsCache.data` / `metricsCache.timestamp`, source lines 367-370). -/
structure MonitorState where
  settings : Settings
  cpuBaseline : CpuBaseline
  lastCpuTimes : Option (Nat × Nat)
  eventLoopLag : Rat
  cacheData : Option Metrics
  cacheTimestamp : Int
  deriving Repr, DecidableEq

/-- Environment of one `collectMetrics` call: the wall clock (`Date.now()`),
every operating-system fact the samplers read, and the outcome of
`process.memoryUsage()`.  `procMem = .error msg` models the call raising an
exception with message `msg`; it is the first operation of the try block, so
a failed call runs no sampler. -/
structure CollectEnv where
  now : Int
  fs : CgroupFs
  host : Host
  disk : DiskEnv
  cpus : List CpuCore
  world : CpuWorld
  procMem : Except String ProcMem
  pid : Nat
  procUptime : Rat
  arch : String
  nodeVersion : String
  osUptime : Rat
  deriving Repr

/-- Assembly of a fresh snapshot (the try block, source lines 587-652):
run every sampler, build the record, replace the cache wholesale with
`(metrics, now)`.  On an exception, log and return the previous cached data
when present, else the `{error}` object, leaving the state untouched
(source lines 653-656). -/
def assembleMetrics (env : CollectEnv) (st : MonitorState) :
    CollectResult × MonitorState :=
  match env.procMem with
  | .error msg =>
    match st.cacheData with
    | some d => (.metrics d, st)
    | none => (.error msg, st)
  | .ok memoryUsage =>
    let systemMemory := getSystemMemory env.fs env.host
    let (cpuPercent, cpuBaseline') := getCpuPercent env.world st.cpuBaseline
    let cpuInfo := getCpuInfo env.cpus env.fs env.host
    let diskUsage := getDiskUsage env.host env.disk
    let (systemCpuPercent, lastCpuTimes') := getSystemCpuUsage env.cpus st.lastCpuTimes
    let containerEnv := detectContainerEnvironment env.fs env.host
    let metrics : Metrics :=
      { timestamp := env.now
        isContainerized := containerEnv.isContainerized
        system :=
          { platform := env.host.platform
            arch := env.arch
            nodeVersion := env.nodeVersion
            cpu :=
              { percent := (jsRound (systemCpuPercent * 10) : Rat) / 10
                cores := cpuInfo.cores
                effectiveCores := cpuInfo.effectiveCores
                model := cpuInfo.model
                speed := cpuInfo.speed }
            memory := systemMemory
            disk := diskUsage
            uptime := env.osUptime }
        nodeRed :=
          { pid := env.pid
            uptime := env.procUptime
            cpu := (jsRound (cpuPercent * 10) : Rat) / 10
            memory :=
              { rss := memoryUsage.rss
                heapTotal := memoryUsage.heapTotal
                heapUsed := memoryUsage.heapUsed
                external := memoryUsage.external
                arrayBuffers := memoryUsage.arrayBuffers.getD 0
                percentOfSystem :=
                  (memoryUsage.rss : Rat) / (systemMemory.total : Rat) * 100 }
            eventLoopLag := (jsRound (st.eventLoopLag * 100) : Rat) / 100 } }
    (.metrics metrics,
      { st with
          cpuBaseline := cpuBaseline'
          lastCpuTimes := lastCpuTimes'
          cacheData := some metrics
          cacheTimestamp := env.now })

/-- The aggregator (source lines 579-657): serve the cached snapshot while
`now - metricsCache.timestamp < settings.refreshInterval / 2` (JavaScript
real division), otherwise assemble a fresh snapshot. -/
def collectMetrics (env : CollectEnv) (st : MonitorState) :
    CollectResult × MonitorState :=
  match st.cacheData with
  | some d =>
    if ((env.now - st.cacheTimestamp : Int) : Rat) < (st.settings.refreshInterval : Rat) / 2 then
      (.metrics d, st)
    else assembleMetrics env st
  | none => assembleMetrics env st

/-! ## Sanity checks for the JavaScript primitives -/

example : jsParseInt "1073741824" = some 1073741824 := by decide
example : jsParseInt "max" = none := by decide
example : jsParseInt "-5" = some (-5) := by decide
example : jsParseInt "9223372036854771712" = some 9223372036854771712 := by decide
example : jsTrim " max " = "max" := by decide
example : jsSplitChar ' ' "50000 100000" = ["50000", "100000"] := by decide
example : jsRound (2000 : Rat) = 2000 := by norm_num [jsRound]

/-! ### Structural lemmas about detection -/

/-- The v2 CPU probe touches only `cpuLimit` and `isContainerized`. -/
lemma applyV2Cpu_preserves (fs : CgroupFs) (info : ContainerInfo) :
    (applyV2Cpu fs info).memoryLimit = info.memoryLimit
    ∧ (applyV2Cpu fs info).cgroupVersion = info.cgroupVersion := by
  constructor
  all_goals
    simp only [applyV2Cpu]
    repeat' split
    all_goals simp

/-- The v1 CPU probe touches only `cpuLimit` and `isContainerized`. -/
lemma applyV1Cpu_preserves (fs : CgroupFs) (info : ContainerInfo) :
    (applyV1Cpu fs info).memoryLimit = info.memoryLimit
    ∧ (applyV1Cpu fs info).cgroupVersion = info.cgroupVersion := by
  constructor
  all_goals
    simp only [applyV1Cpu]
    repeat' split
    all_goals simp

/-- The v2 memory probe yields either the unconfined record or a fully
populated v2 record whose limit lies strictly between 0 and host memory. -/
lemma detectV2Memory_cases (host : Host) (raw : String) :
    detectV2Memory host raw = ContainerInfo.unconfined
    ∨ ∃ L, 0 < L ∧ L < (host.totalmem : Int)
        ∧ detectV2Memory host raw = ⟨true, some 2, some L, none⟩ := by
  simp only [detectV2Memory]
  split
  · split
    · split
      · rename_i memLimit _ h
        exact Or.inr ⟨memLimit, h.1, h.2, rfl⟩
      · exact Or.inl rfl
    · exact Or.inl rfl
  · exact Or.inl rfl

/-- The v1 memory probe yields either the unconfined record or a fully
populated v1 record whose limit lies strictly between 0 and host memory. -/
lemma detectV1Memory_cases (host : Host) (raw : String) :
    detectV1Memory host raw = ContainerInfo.unconfined
    ∨ ∃ L, 0 < L ∧ L < (host.totalmem : Int)
        ∧ detectV1Memory host raw = ⟨true, some 1, some L, none⟩ := by
  simp only [detectV1Memory]
  split
  · rename_i memLimit heq
    split
    · rename_i h
      exact Or.inr ⟨memLimit, h.1, h.2.2, rfl⟩
    · exact Or.inl rfl
  · exact Or.inl rfl

/-- The marker fallback touches only `isContainerized`. -/
lemma applyMarkers_preserves (fs : CgroupFs) (info : ContainerInfo) :
    (applyMarkers fs info).memoryLimit = info.memoryLimit
    ∧ (applyMarkers fs info).cgroupVersion = info.cgroupVersion
    ∧ (applyMarkers fs info).cpuLimit = info.cpuLimit := by
  unfold applyMarkers
  split
  all_goals simp

/-- Case analysis of the memory-limit and cgroup-version fields of the full
detection: either both are absent, or the limit is a genuine one (strictly
between 0 and host memory) tagged with cgroup version 2 or 1. -/
lemma detect_memory_cases (fs : CgroupFs) (host : Host) :
    ((detectContainerEnvironment fs host).memoryLimit = none
      ∧ (detectContainerEnvironment fs host).cgroupVersion = none)
    ∨ ∃ L, 0 < L ∧ L < (host.totalmem : Int)
        ∧ (detectContainerEnvironment fs host).memoryLimit = some L
        ∧ ((detectContainerEnvironment fs host).cgroupVersion = some 2
            ∨ (detectContainerEnvironment fs host).cgroupVersion = some 1) := by
  unfold detectContainerEnvironment
  split
  · left
    exact ⟨rfl, rfl⟩
  · rcases hv2 : fs.v2MemoryMax with _ | memMaxRaw
    · rcases hv1 : fs.v1MemoryLimit with _ | memLimitRaw
      · left
        simp [hv2, hv1, (applyMarkers_preserves fs _).1, (applyMarkers_preserves fs _).2.1,
          ContainerInfo.unconfined]
      · rcases detectV1Memory_cases host memLimitRaw with hc | ⟨L, h1, h2, hc⟩
        · left
          simp [hv2, hv1, detectContainerV1, hc, (applyMarkers_preserves fs _).1,
            (applyMarkers_preserves fs _).2.1, (applyV1Cpu_preserves fs _).1,
            (applyV1Cpu_preserves fs _).2, ContainerInfo.unconfined]
        · right
          refine ⟨L, h1, h2, ?_⟩
          simp [hv2, hv1, detectContainerV1, hc, (applyMarkers_preserves fs _).1,
            (applyMarkers_preserves fs _).2.1, (applyV1Cpu_preserves fs _).1,
            (applyV1Cpu_preserves fs _).2]
    · rcases detectV2Memory_cases host memMaxRaw with hc | ⟨L, h1, h2, hc⟩
      · left
        simp [hv2, detectContainerV2, hc, (applyMarkers_preserves fs _).1,
          (applyMarkers_preserves fs _).2.1, (applyV2Cpu_preserves fs _).1,
          (applyV2Cpu_preserves fs _).2, ContainerInfo.unconfined]
      · right
        refine ⟨L, h1, h2, ?_⟩
        simp [hv2, detectContainerV2, hc, (applyMarkers_preserves fs _).1,
          (applyMarkers_preserves fs _).2.1, (applyV2Cpu_preserves fs _).1,
          (applyV2Cpu_preserves fs _).2]

/-- A detected memory limit is genuine: strictly positive and strictly below
total host memory. -/
lemma detect_memoryLimit_bounds {fs : CgroupFs} {host : Host} {L : Int}
    (h : (detectContainerEnvironment fs host).memoryLimit = some L) :
    0 < L ∧ L < (host.totalmem : Int) := by
  rcases detect_memory_cases fs host with ⟨h1, _⟩ | ⟨L', h1, h2, h3, _⟩
  · rw [h1] at h
    exact absurd h (by simp)
  · rw [h3] at h
    cases h
    exact ⟨h1, h2⟩

/-! ### Arithmetic lemmas about `jsRound` and the percentage formula -/

/-- Rounding a non-negative rational is non-negative. -/
lemma jsRound_nonneg {q : Rat} (h : 0 ≤ q) : 0 ≤ jsRound q := by
  unfold jsRound
  exact Int.le_floor.mpr (by push_cast; linarith)

/-- Rounding a rational that is at most 1000 stays at most 1000. -/
lemma jsRound_le_thousand {q : Rat} (h : q ≤ 1000) : jsRound q ≤ 1000 := by
  unfold jsRound
  have h2 : ⌊q + 1 / 2⌋ < 1001 := Int.floor_lt.mpr (by push_cast; linarith)
  omega

/-- The percentage `round(u/t × 1000)/10` lies in [0, 100] whenever
`0 ≤ u ≤ t` and `0 < t`. -/
lemma usedPercent_bounds {u t : Int} (hu : 0 ≤ u) (ht : 0 < t) (hut : u ≤ t) :
    0 ≤ (jsRound ((u : Rat) / (t : Rat) * 1000) : Rat) / 10
    ∧ (jsRound ((u : Rat) / (t : Rat) * 1000) : Rat) / 10 ≤ 100 := by
  have htR : (0 : Rat) < (t : Rat) := by exact_mod_cast ht
  have huR : (0 : Rat) ≤ (u : Rat) := by exact_mod_cast hu
  have h0 : (0 : Rat) ≤ (u : Rat) / (t : Rat) * 1000 := by positivity
  have h1 : (u : Rat) / (t : Rat) ≤ 1 :=
    div_le_one_of_le₀ (by exact_mod_cast hut) (le_of_lt htR)
  have h2 : (u : Rat) / (t : Rat) * 1000 ≤ 1000 := by nlinarith
  have r0 := jsRound_nonneg h0
  have r1 := jsRound_le_thousand h2
  constructor
  · exact div_nonneg (by exact_mod_cast r0) (by norm_num)
  · rw [div_le_iff₀ (by norm_num : (0 : Rat) < 10)]
    calc (jsRound ((u : Rat) / (t : Rat) * 1000) : Rat) ≤ 1000 := by exact_mod_cast r1
      _ = 100 * 10 := by norm_num

/-! ### Shape lemmas about the memory samplers -/

/-- Every memory block `getContainerMemory` produces: its `total` is the
detected limit, `used` is the non-negative usage counter, `free` and
`available` are both `max(0, limit - usage)`, and `usedPercent` is derived
from `used/total` by the rounding formula. -/
lemma getContainerMemory_shape {fs : CgroupFs} {host : Host} {m : MemBlock}
    (h : getContainerMemory fs host = some m) :
    (detectContainerEnvironment fs host).memoryLimit = some m.total
    ∧ 0 ≤ m.used
    ∧ m.free = max 0 (m.total - m.used)
    ∧ m.available = m.free
    ∧ m.usedPercent = (jsRound ((m.used : Rat) / (m.total : Rat) * 1000) : Rat) / 10 := by
  simp only [getContainerMemory] at h
  split at h
  · exact absurd h (by simp)
  · split at h
    · exact absurd h (by simp)
    · rename_i limit heq
      injection h with h
      subst h
      refine ⟨heq, ?_, rfl, rfl, rfl⟩
      dsimp only
      split_ifs <;> simp

/-- The host path of `getSystemMemory` (container memory absent): the block
satisfies `free = available`, `used = max 0 (total - free)`, `0 ≤ free`,
`total` is the host total, and `usedPercent` is the rounding formula. -/
lemma getSystemMemory_host_shape {fs : CgroupFs} {host : Host}
    (h : getContainerMemory fs host = none) :
    (getSystemMemory fs host).free = (getSystemMemory fs host).available
    ∧ (getSystemMemory fs host).total = (host.totalmem : Int)
    ∧ 0 ≤ (getSystemMemory fs host).free
    ∧ (getSystemMemory fs host).used
        = max 0 ((getSystemMemory fs host).total - (getSystemMemory fs host).free)
    ∧ (getSystemMemory fs host).usedPercent
        = (jsRound (((getSystemMemory fs host).used : Rat)
            / ((getSystemMemory fs host).total : Rat) * 1000) : Rat) / 10 := by
  unfold getSystemMemory
  rw [h]
  refine ⟨rfl, rfl, ?_, rfl, rfl⟩
  dsimp only
  split_ifs <;> first | positivity | (split <;> positivity)

/-! ## Claim C10 — `free` equals `available` in every memory block -/

/-- C10: every memory block returned at the public interface has its `free`
field equal to its `available` field: `getSystemMemory()` sets
`available = free` on every host path, and `getContainerMemory()` sets both
to `max(0, limit - currentUsage)`. -/
theorem memory_free_eq_available_c10 (fs : CgroupFs) (host : Host) :
    (getSystemMemory fs host).free = (getSystemMemory fs host).available
    ∧ (∀ m, getContainerMemory fs host = some m →
        m.free = m.available ∧ m.free = max 0 (m.total - m.used)) := by
  constructor
  · cases hc : getContainerMemory fs host with
    | none => exact (getSystemMemory_host_shape hc).1
    | some m =>
      have hs := (getContainerMemory_shape hc).2.2.2.1
      unfold getSystemMemory
      rw [hc]
      exact hs.symm
  · intro m hm
    have s := getContainerMemory_shape hm
    exact ⟨s.2.2.2.1.symm, s.2.2.1⟩

/-- Witness environment: a Linux host with 16 GiB of memory, a cgroup v2
limit of 1 GiB and zero bytes of current usage. -/
def witnessFs : CgroupFs :=
  ⟨some "1073741824", some 0, none, none, none, none, none, false, false⟩

/-- Witness host record for the container scenarios. -/
def witnessHost : Host :=
  ⟨"linux", 17179869184, 0, none, none⟩

/-- Detection on the witness environment reports a containerized process
with the 1 GiB v2 limit. -/
lemma witness_detect :
    detectContainerEnvironment witnessFs witnessHost
      = ⟨true, some 2, some 1073741824, none⟩ := by
  decide

/-- Container memory on the witness environment: 1 GiB limit, 0 used. -/
lemma witness_containerMemory :
    getContainerMemory witnessFs witnessHost
      = some ⟨1073741824, 0, 1073741824, 1073741824, 0⟩ := by
  rw [getContainerMemory, witness_detect]
  norm_num [jsTruthyOptInt, jsRound, witnessFs]

/-- Witness for C10: the witness container block has `free = available`. -/
theorem memory_free_eq_available_c10_witness :
    (⟨1073741824, 0, 1073741824, 1073741824, 0⟩ : MemBlock).free
        = (⟨1073741824, 0, 1073741824, 1073741824, 0⟩ : MemBlock).available
    ∧ (⟨1073741824, 0, 1073741824, 1073741824, 0⟩ : MemBlock).free
        = max 0 ((⟨1073741824, 0, 1073741824, 1073741824, 0⟩ : MemBlock).total
            - (⟨1073741824, 0, 1073741824, 1073741824, 0⟩ : MemBlock).used) :=
  (memory_free_eq_available_c10 witnessFs witnessHost).2 _ witness_containerMemory

/-! ## Claim C8 — `getCpuPercent` formula and clamping -/

/-- C8: `getCpuPercent()` returns `(Δuser + Δsystem microseconds)/1000/Δwall-ms × 100`
clamped into [0, 100] — its output is within [0, 100] regardless of how
extreme the diff inputs are — and returns 0 whenever the elapsed wall time
since the baseline is non-positive. -/
theorem getCpuPercent_formula_and_clamp_c8 (w : CpuWorld) (b : CpuBaseline) :
    (getCpuPercent w b).1 =
      (if elapsedMsOf w b ≤ 0 then 0 else min (max (rawCpuPercent w b) 0) 100)
    ∧ 0 ≤ (getCpuPercent w b).1 ∧ (getCpuPercent w b).1 ≤ 100 := by
  unfold getCpuPercent
  split
  · exact ⟨rfl, le_refl 0, by norm_num⟩
  · exact ⟨rfl, le_min (le_max_right _ 0) (by norm_num), min_le_right _ 100⟩

/-! ## Claim C4 — `getCpuPercent` baseline mutation (corrected) -/

/-- C4 counterexample: with zero elapsed wall time, `getCpuPercent` returns 0
and leaves the `CpuBaseline` untouched, so it is not reset to the values at
the moment of the call (here the cumulative counters read 100/100 but the
baseline keeps 0/0). -/
theorem getCpuPercent_stale_baseline_counterexample_c4 :
    (getCpuPercent ⟨100, 100, 5⟩ ⟨0, 0, 5⟩).1 = 0
    ∧ (getCpuPercent ⟨100, 100, 5⟩ ⟨0, 0, 5⟩).2 = ⟨0, 0, 5⟩
    ∧ ((⟨0, 0, 5⟩ : CpuBaseline) ≠ ⟨100, 100, 5⟩) := by
  refine ⟨?_, ?_, by decide⟩ <;> norm_num [getCpuPercent, elapsedMsOf]

/-- C4 amended: `getCpuPercent()` resets the CpuBaseline to the values at the
moment of the call on every call whose elapsed wall time is positive; when
the elapsed wall time is non-positive it returns 0 and leaves the baseline
unchanged. -/
theorem getCpuPercent_baseline_mutation_c4 (w : CpuWorld) (b : CpuBaseline) :
    (0 < elapsedMsOf w b → (getCpuPercent w b).2 = ⟨w.user, w.system, w.timeNs⟩)
    ∧ (elapsedMsOf w b ≤ 0 → (getCpuPercent w b).1 = 0 ∧ (getCpuPercent w b).2 = b) := by
  unfold getCpuPercent
  constructor
  · intro h
    rw [if_neg (not_le.mpr h)]
  · intro h
    rw [if_pos h]
    exact ⟨rfl, rfl⟩

/-- Witness for C4's amended theorem: two milliseconds of elapsed wall time
reset the baseline to the sampled counters. -/
theorem getCpuPercent_baseline_mutation_c4_witness :
    (getCpuPercent ⟨100, 100, 2000000⟩ ⟨0, 0, 0⟩).2 = ⟨100, 100, 2000000⟩ :=
  (getCpuPercent_baseline_mutation_c4 ⟨100, 100, 2000000⟩ ⟨0, 0, 0⟩).1
    (by norm_num [elapsedMsOf])

/-! ## Claim C6 — memory `usedPercent` derivation and bounds (corrected) -/

/-- Environment whose cgroup usage counter exceeds the 1 GiB limit. -/
def overLimitFs : CgroupFs :=
  ⟨some "1073741824", some 2147483648, none, none, none, none, none, false, false⟩

/-- Detection on the over-limit environment still reports the 1 GiB limit. -/
lemma overLimitFs_detect :
    detectContainerEnvironment overLimitFs witnessHost
      = ⟨true, some 2, some 1073741824, none⟩ := by
  decide

/-- C6 counterexample: when the cgroup current usage (2 GiB) exceeds the
limit (1 GiB), the produced memory block has `usedPercent = 200`, outside
[0, 100], although it still equals `round(used/total × 1000)/10`. -/
theorem memory_usedPercent_counterexample_c6 :
    getContainerMemory overLimitFs witnessHost
      = some ⟨1073741824, 2147483648, 0, 0, 200⟩
    ∧ ¬((200 : Rat) ≤ 100) := by
  constructor
  · rw [getContainerMemory, overLimitFs_detect]
    norm_num [jsTruthyOptInt, jsRound, overLimitFs]
  · norm_num

/-- C6 amended: for every memory block produced by the samplers,
`usedPercent` equals `round(used/total × 1000)/10` and is never sourced
independently; it lies in [0, 100] on the host path (whenever the host
reports positive total memory) and on the container path whenever the
measured usage does not exceed the limit — but it exceeds 100 when the
cgroup usage counter exceeds the limit. -/
theorem memory_usedPercent_c6 (fs : CgroupFs) (host : Host) :
    (∀ m, getContainerMemory fs host = some m →
      m.usedPercent = (jsRound ((m.used : Rat) / (m.total : Rat) * 1000) : Rat) / 10
      ∧ (m.used ≤ m.total → 0 ≤ m.usedPercent ∧ m.usedPercent ≤ 100))
    ∧ (getContainerMemory fs host = none → 0 < host.totalmem →
      (getSystemMemory fs host).usedPercent
        = (jsRound (((getSystemMemory fs host).used : Rat)
            / ((getSystemMemory fs host).total : Rat) * 1000) : Rat) / 10
      ∧ 0 ≤ (getSystemMemory fs host).usedPercent
      ∧ (getSystemMemory fs host).usedPercent ≤ 100) := by
  constructor
  · intro m hm
    obtain ⟨hdet, hu, _, _, hpct⟩ := getContainerMemory_shape hm
    refine ⟨hpct, fun hut => ?_⟩
    have ht : 0 < m.total := (detect_memoryLimit_bounds hdet).1
    have := usedPercent_bounds hu ht hut
    rw [hpct]
    exact this
  · intro hc htot
    obtain ⟨_, htotal, hfree, hused, hpct⟩ := getSystemMemory_host_shape hc
    refine ⟨hpct, ?_⟩
    have ht : 0 < (getSystemMemory fs host).total := by
      rw [htotal]; exact_mod_cast htot
    have hu : 0 ≤ (getSystemMemory fs host).used := by
      rw [hused]; exact le_max_left 0 _
    have hut : (getSystemMemory fs host).used ≤ (getSystemMemory fs host).total := by
      rw [hused]
      have : (getSystemMemory fs host).total - (getSystemMemory fs host).free
          ≤ (getSystemMemory fs host).total := by linarith
      exact max_le (le_of_lt ht) this
    have := usedPercent_bounds hu ht hut
    rw [hpct]
    exact this

/-- Witness for C6's amended theorem: the witness container block (0 bytes
used of a 1 GiB limit) has `usedPercent` within [0, 100]. -/
theorem memory_usedPercent_c6_witness :
    0 ≤ (⟨1073741824, 0, 1073741824, 1073741824, 0⟩ : MemBlock).usedPercent
    ∧ (⟨1073741824, 0, 1073741824, 1073741824, 0⟩ : MemBlock).usedPercent ≤ 100 :=
  ((memory_usedPercent_c6 witnessFs witnessHost).1 _ witness_containerMemory).2
    (by decide)

/-! ## Claim C7 — acceptance condition for cgroup memory limits -/

/-- Environment whose cgroup v2 `memory.max` holds the literal `max`. -/
def maxSentinelFs : CgroupFs :=
  ⟨some "max", none, none, none, none, none, none, false, false⟩

/-- Environment whose cgroup v1 `memory.limit_in_bytes` holds the no-limit
sentinel value. -/
def v1SentinelFs : CgroupFs :=
  ⟨none, none, none, some "9223372036854771712", none, none, none, false, false⟩

/-- C7: a parsed cgroup limit is accepted as genuine only when strictly
positive and strictly below total host memory; a v2 `memory.max` of `max`
yields unconfined, a numeric 1 GiB value on a 16 GiB host yields
`isContainerized = true` with `memoryLimit = 1073741824`, and a v1 value at
the max-signed-64-bit no-limit sentinel yields unconfined. -/
theorem container_limit_detection_c7 :
    (∀ (fs : CgroupFs) (host : Host) (L : Int),
        (detectContainerEnvironment fs host).memoryLimit = some L →
        0 < L ∧ L < (host.totalmem : Int))
    ∧ detectContainerEnvironment maxSentinelFs witnessHost = ContainerInfo.unconfined
    ∧ (detectContainerEnvironment witnessFs witnessHost).isContainerized = true
    ∧ (detectContainerEnvironment witnessFs witnessHost).memoryLimit = some 1073741824
    ∧ detectContainerEnvironment v1SentinelFs witnessHost = ContainerInfo.unconfined := by
  refine ⟨fun fs host L h => detect_memoryLimit_bounds h, ?_, ?_, ?_, ?_⟩ <;> decide

/-- Witness for C7: the accepted 1 GiB limit indeed lies strictly between 0
and the 16 GiB host total. -/
theorem container_limit_detection_c7_witness :
    0 < (1073741824 : Int) ∧ (1073741824 : Int) < (witnessHost.totalmem : Int) :=
  container_limit_detection_c7.1 witnessFs witnessHost 1073741824
    (by rw [witness_detect])

/-! ## Claim C3 — `cgroupVersion = none` and absent limits (corrected) -/

/-- Environment with no v2 memory limit (`max`) but a v2 CPU quota of half a
core. -/
def cpuOnlyFs : CgroupFs :=
  ⟨some "max", none, some "50000 100000", none, none, none, none, false, false⟩

/-- C3 counterexample: with `memory.max = max` and `cpu.max = 50000 100000`,
detection leaves `cgroupVersion = none` yet sets a CPU limit (and marks the
process containerized), so "cgroupVersion none implies both limits absent"
fails for `cpuLimit`. -/
theorem containerInfo_version_counterexample_c3 :
    (detectContainerEnvironment cpuOnlyFs witnessHost).cgroupVersion = none
    ∧ (detectContainerEnvironment cpuOnlyFs witnessHost).cpuLimit ≠ none
    ∧ (detectContainerEnvironment cpuOnlyFs witnessHost).isContainerized = true := by
  refine ⟨?_, ?_, ?_⟩ <;> decide

/-- C3 amended: `cgroupVersion = none` implies the *memory* limit is absent;
the CPU limit, however, can be present with `cgroupVersion = none`, because
the CPU probes set `cpuLimit` without recording a cgroup version. -/
theorem containerInfo_version_memoryLimit_c3 (fs : CgroupFs) (host : Host)
    (h : (detectContainerEnvironment fs host).cgroupVersion = none) :
    (detectContainerEnvironment fs host).memoryLimit = none := by
  rcases detect_memory_cases fs host with ⟨h1, _⟩ | ⟨L, _, _, _, h4 | h4⟩
  · exact h1
  · rw [h4] at h
    exact absurd h (by simp)
  · rw [h4] at h
    exact absurd h (by simp)

/-- Witness for C3's amended theorem at the CPU-only environment. -/
theorem containerInfo_version_memoryLimit_c3_witness :
    (detectContainerEnvironment cpuOnlyFs witnessHost).memoryLimit = none :=
  containerInfo_version_memoryLimit_c3 cpuOnlyFs witnessHost (by decide)

/-! ## Claim C5 — `getDiskUsage` fallback and derivation (corrected) -/

/-- C5 counterexample: on a successful statistics query with
`blocks = 1000000`, `bsize = 4096`, `bfree = 500000`, `bavail = 400000`, the
returned `free` field is `bavail × bsize = 1638400000`, not
`bfree × bsize = 2048000000`. -/
theorem getDiskUsage_free_counterexample_c5 :
    (getDiskUsage witnessHost ⟨true, some ⟨1000000, 4096, 500000, 400000⟩⟩).free
      = some 1638400000
    ∧ (getDiskUsage witnessHost ⟨true, some ⟨1000000, 4096, 500000, 400000⟩⟩).free
      ≠ some ((500000 : Int) * 4096) := by
  refine ⟨?_, ?_⟩ <;> decide

/-- C5 amended: `getDiskUsage()` returns exactly
`{mount: "/", total: 0, used: 0, available: 0, usedPercent: 0}` (with no
`free` key) when the statistics primitive is unavailable or errors; on
success it returns `total = blocks×blockSize`,
`used = total − freeBlocks×blockSize`,
`available = availableBlocks×blockSize`, `usedPercent` by the guarded
rounding formula, and a `free` field equal to the `available` value (not to
`freeBlocks×blockSize`). -/
theorem getDiskUsage_c5 (host : Host) (env : DiskEnv) :
    ((env.statfsAvailable = false ∨ env.statfs = none) →
      getDiskUsage host env = ⟨"/", 0, 0, none, 0, 0⟩)
    ∧ (∀ stats, env.statfsAvailable = true → env.statfs = some stats →
        (getDiskUsage host env).total = ((stats.blocks * stats.bsize : Nat) : Int)
        ∧ (getDiskUsage host env).used
            = ((stats.blocks * stats.bsize : Nat) : Int)
              - ((stats.bfree * stats.bsize : Nat) : Int)
        ∧ (getDiskUsage host env).available = ((stats.bavail * stats.bsize : Nat) : Int)
        ∧ (getDiskUsage host env).free = some ((stats.bavail * stats.bsize : Nat) : Int)
        ∧ (getDiskUsage host env).usedPercent
            = (if 0 < ((stats.blocks * stats.bsize : Nat) : Int)
               then (jsRound (((((stats.blocks * stats.bsize : Nat) : Int)
                      - ((stats.bfree * stats.bsize : Nat) : Int)) : Rat)
                    / (((stats.blocks * stats.bsize : Nat) : Int) : Rat) * 1000) : Rat) / 10
               else 0)) := by
  constructor
  · intro h
    rcases h with h | h <;> simp [getDiskUsage, h, defaultDisk]
  · intro stats hA hS
    simp [getDiskUsage, hA, hS]

/-- Witness for C5's amended theorem: with the statistics primitive
unavailable, the zeroed default is returned exactly. -/
theorem getDiskUsage_c5_witness :
    getDiskUsage witnessHost ⟨false, none⟩ = ⟨"/", 0, 0, none, 0, 0⟩ :=
  (getDiskUsage_c5 witnessHost ⟨false, none⟩).1 (Or.inl rfl)

/-! ## Claim C9 — settings updates and `refreshInterval` (corrected) -/

/-- The `parseInt(x) || d` pattern never stores 0 when the default is
non-zero. -/
lemma jsOrInt_ne_zero (o : Option Int) {d : Int} (hd : d ≠ 0) : jsOrInt o d ≠ 0 := by
  cases o with
  | none => simpa [jsOrInt] using hd
  | some v =>
    simp only [jsOrInt]
    split_ifs with hv
    · exact hd
    · exact hv

/-- One settings update keeps `refreshInterval` non-zero. -/
lemma updateSettings_refreshInterval_ne_zero (body : ReqBody) (s : Settings)
    (h : s.refreshInterval ≠ 0) : (updateSettings body s).refreshInterval ≠ 0 := by
  unfold updateSettings
  repeat' split
  all_goals simp_all
  all_goals exact jsOrInt_ne_zero _ (by norm_num)

/-- C9 counterexample: an update whose `refreshInterval` is the numeric
string `-5` stores `-5`, which is not positive, so "refreshInterval is a
positive integer after any sequence of updates" fails. -/
theorem settings_positive_counterexample_c9 :
    (updateSettings ⟨some "-5", none, none, none, none, none, []⟩
        defaultSettings).refreshInterval = -5
    ∧ ¬(0 < (-5 : Int)) := by
  exact ⟨by decide, by norm_num⟩

/-- C9 amended: after any sequence of updates `refreshInterval` is a
non-zero integer — but not necessarily positive, since a negative numeric
value is stored as-is; an update whose value fails to coerce to a number
sets it to the default 2000; and a body with only unrecognized fields leaves
the stored settings unchanged. -/
theorem settings_refreshInterval_c9 :
    (∀ (bodies : List ReqBody) (s : Settings), s.refreshInterval ≠ 0 →
      (bodies.foldl (fun acc b => updateSettings b acc) s).refreshInterval ≠ 0)
    ∧ (∀ (body : ReqBody) (s : Settings) (v : String),
        body.refreshInterval = some v → jsParseInt v = none →
        (updateSettings body s).refreshInterval = 2000)
    ∧ (∀ (extra : List (String × String)) (s : Settings),
        updateSettings (ReqBody.onlyUnrecognized extra) s = s) := by
  refine ⟨?_, ?_, fun extra s => rfl⟩
  · intro bodies
    induction bodies with
    | nil => exact fun s h => h
    | cons b rest ih =>
      intro s h
      exact ih (updateSettings b s) (updateSettings_refreshInterval_ne_zero b s h)
  · intro body s v hb hv
    unfold updateSettings
    rw [hb]
    repeat' split
    all_goals simp_all [jsOrInt]

/-- Witness for C9's amended theorem: a non-numeric `refreshInterval`
(`"soon"`) is coerced to the default 2000. -/
theorem settings_refreshInterval_c9_witness :
    (updateSettings ⟨some "soon", none, none, none, none, none, []⟩
        defaultSettings).refreshInterval = 2000 :=
  settings_refreshInterval_c9.2.1 _ defaultSettings "soon" rfl (by decide)

/-! ## Claim C2 — error handling in `collectMetrics` -/

/-- C2: when snapshot assembly raises, `collectMetrics` never propagates the
exception: it returns the previously cached snapshot when one exists,
otherwise the minimal `{error}` object, and the whole module state — in
particular the cache — is left unchanged by the failed call. -/
theorem collect_error_handling_c2 (env : CollectEnv) (st : MonitorState) (msg : String)
    (herr : env.procMem = .error msg) :
    (∀ d, st.cacheData = some d → collectMetrics env st = (.metrics d, st))
    ∧ (st.cacheData = none → collectMetrics env st = (.error msg, st)) := by
  constructor
  · intro d hd
    unfold collectMetrics
    split
    · rename_i d' hd'
      rw [hd] at hd'
      injection hd' with hd'
      subst hd'
      split
      · rfl
      · unfold assembleMetrics
        rw [herr, hd]
    · rename_i hd'
      rw [hd] at hd'
      cases hd'
  · intro hd
    unfold collectMetrics
    split
    · rename_i d' hd'
      rw [hd] at hd'
      cases hd'
    · unfold assembleMetrics
      rw [herr, hd]

/-- Baseline environment used by the aggregator witnesses; its
`process.memoryUsage()` read succeeds. -/
def okEnv : CollectEnv :=
  { now := 0
    fs := witnessFs
    host := witnessHost
    disk := ⟨false, none⟩
    cpus := []
    world := ⟨0, 0, 0⟩
    procMem := .ok ⟨0, 0, 0, 0, none⟩
    pid := 1
    procUptime := 0
    arch := "x64"
    nodeVersion := "v18.0.0"
    osUptime := 0 }

/-- Environment whose `process.memoryUsage()` read throws. -/
def failingEnv : CollectEnv :=
  { okEnv with procMem := .error "boom" }

/-- Module state with an empty cache. -/
def emptyState : MonitorState :=
  ⟨defaultSettings, ⟨0, 0, 0⟩, none, 0, none, 0⟩

/-- Witness for C2: a failing call on an empty cache returns the `{error}`
object and leaves the state unchanged. -/
theorem collect_error_handling_c2_witness :
    collectMetrics failingEnv emptyState = (.error "boom", emptyState) :=
  (collect_error_handling_c2 failingEnv emptyState "boom" rfl).2 rfl

/-! ## Claim C1 — cache-hit fast path and cache replacement -/

/-- Settings survive a `collectMetrics` call unchanged. -/
lemma collect_preserves_settings (env : CollectEnv) (st : MonitorState) :
    (collectMetrics env st).2.settings = st.settings := by
  unfold collectMetrics assembleMetrics
  repeat' split
  all_goals rfl

/-- State invariant maintained by `collectMetrics`: the cached snapshot's
`timestamp` field always equals `metricsCache.timestamp`, the cache
timestamp never runs ahead of the wall clock, and every returned snapshot is
stamped no later than the wall clock of the call. -/
lemma collect_state_inv (env : CollectEnv) (st : MonitorState)
    (hinv : ∀ d, st.cacheData = some d → d.timestamp = st.cacheTimestamp)
    (hts : st.cacheTimestamp ≤ env.now) :
    (∀ d, (collectMetrics env st).2.cacheData = some d →
        d.timestamp = (collectMetrics env st).2.cacheTimestamp)
    ∧ (collectMetrics env st).2.cacheTimestamp ≤ env.now
    ∧ (∀ m, (collectMetrics env st).1 = .metrics m → m.timestamp ≤ env.now) := by
  unfold collectMetrics
  split
  · rename_i d hd
    split
    · refine ⟨hinv, hts, fun m hm => ?_⟩
      cases hm
      exact (hinv d hd).le.trans hts
    · unfold assembleMetrics
      split
      · rw [hd]
        refine ⟨hinv, hts, fun m hm => ?_⟩
        cases hm
        exact (hinv d hd).le.trans hts
      · exact ⟨by intro d' hd'; cases hd'; rfl, le_refl _, by intro m hm; cases hm; rfl⟩
  · rename_i hd
    unfold assembleMetrics
    split
    · rw [hd]
      exact ⟨hinv, hts, by intro m hm; cases hm⟩
    · exact ⟨by intro d' hd'; cases hd'; rfl, le_refl _, by intro m hm; cases hm; rfl⟩

/-- A cache miss with successful sampling assembles a snapshot stamped `now`
and replaces the cache wholesale with `(snapshot, now)`. -/
lemma collect_miss_fresh (env : CollectEnv) (st : MonitorState) (pm : ProcMem)
    (hok : env.procMem = .ok pm)
    (hmiss : ∀ d, st.cacheData = some d →
      (st.settings.refreshInterval : Rat) / 2 ≤ ((env.now - st.cacheTimestamp : Int) : Rat)) :
    ∃ m, collectMetrics env st
        = (.metrics m,
           { st with
               cpuBaseline := (getCpuPercent env.world st.cpuBaseline).2
               lastCpuTimes := (getSystemCpuUsage env.cpus st.lastCpuTimes).2
               cacheData := some m
               cacheTimestamp := env.now })
      ∧ m.timestamp = env.now := by
  unfold collectMetrics
  split
  · rename_i d hd
    rw [if_neg (not_lt.mpr (hmiss d hd))]
    unfold assembleMetrics
    rw [hok]
    exact ⟨_, rfl, rfl⟩
  · unfold assembleMetrics
    rw [hok]
    exact ⟨_, rfl, rfl⟩

/-- C1: the cache-hit fast path returns the cached snapshot unchanged (so
repeated calls inside the window return identical snapshots and consult no
sampler), a cache miss with successful sampling stamps the fresh snapshot
`now` and replaces the cache wholesale, and two calls spaced more than a
full `refreshInterval` apart return strictly increasing `timestamp`s. -/
theorem collect_cache_c1 :
    (∀ (env : CollectEnv) (st : MonitorState) (d : Metrics),
        st.cacheData = some d →
        ((env.now - st.cacheTimestamp : Int) : Rat) < (st.settings.refreshInterval : Rat) / 2 →
        collectMetrics env st = (.metrics d, st)
        ∧ ∀ env' : CollectEnv, env'.now = env.now →
            collectMetrics env' st = (.metrics d, st))
    ∧ (∀ (env : CollectEnv) (st : MonitorState) (pm : ProcMem),
        env.procMem = .ok pm →
        (∀ d, st.cacheData = some d →
          (st.settings.refreshInterval : Rat) / 2 ≤ ((env.now - st.cacheTimestamp : Int) : Rat)) →
        ∃ m, collectMetrics env st
            = (.metrics m,
               { st with
                   cpuBaseline := (getCpuPercent env.world st.cpuBaseline).2
                   lastCpuTimes := (getSystemCpuUsage env.cpus st.lastCpuTimes).2
                   cacheData := some m
                   cacheTimestamp := env.now })
          ∧ m.timestamp = env.now)
    ∧ (∀ (env1 env2 : CollectEnv) (st : MonitorState) (pm2 : ProcMem) (m1 m2 : Metrics),
        (∀ d, st.cacheData = some d → d.timestamp = st.cacheTimestamp) →
        st.cacheTimestamp ≤ env1.now →
        0 < st.settings.refreshInterval →
        (st.settings.refreshInterval : Int) < env2.now - env1.now →
        env2.procMem = .ok pm2 →
        (collectMetrics env1 st).1 = .metrics m1 →
        (collectMetrics env2 (collectMetrics env1 st).2).1 = .metrics m2 →
        m1.timestamp < m2.timestamp) := by
  have hit : ∀ (env : CollectEnv) (st : MonitorState) (d : Metrics),
      st.cacheData = some d →
      ((env.now - st.cacheTimestamp : Int) : Rat) < (st.settings.refreshInterval : Rat) / 2 →
      collectMetrics env st = (.metrics d, st) := by
    intro env st d hd hfresh
    unfold collectMetrics
    rw [hd]
    exact if_pos hfresh
  refine ⟨?_, ?_, ?_⟩
  · intro env st d hd hfresh
    refine ⟨hit env st d hd hfresh, fun env' hnow => hit env' st d hd ?_⟩
    rw [hnow]
    exact hfresh
  · exact collect_miss_fresh
  · intro env1 env2 st pm2 m1 m2 hinv hts hr hgap hok2 h1 h2
    set st1 := (collectMetrics env1 st).2 with hst1
    obtain ⟨hinv1, hts1, hm1⟩ := collect_state_inv env1 st hinv hts
    have hm1le : m1.timestamp ≤ env1.now := hm1 m1 h1
    have hsettings : st1.settings = st.settings := collect_preserves_settings env1 st
    have hmiss2 : ∀ d, st1.cacheData = some d →
        (st1.settings.refreshInterval : Rat) / 2 ≤ ((env2.now - st1.cacheTimestamp : Int) : Rat) := by
      intro d _
      rw [hsettings]
      have h1R : (st.settings.refreshInterval : Rat) < ((env2.now - env1.now : Int) : Rat) := by
        exact_mod_cast hgap
      have h2R : ((st1.cacheTimestamp : Int) : Rat) ≤ ((env1.now : Int) : Rat) := by
        exact_mod_cast hts1
      have h3R : (0 : Rat) < (st.settings.refreshInterval : Rat) := by
        exact_mod_cast hr
      push_cast at h1R h2R ⊢
      linarith
    obtain ⟨m, hmeq, hmts⟩ := collect_miss_fresh env2 st1 pm2 hok2 hmiss2
    have : m2 = m := by
      rw [hmeq] at h2
      cases h2
      rfl
    subst this
    rw [hmts]
    have h1I : (st.settings.refreshInterval : Int) < env2.now - env1.now := hgap
    omega

/-- Snapshot used to populate the witness cache. -/
def witnessSnapshot : Metrics :=
  { timestamp := 0
    isContainerized := false
    system :=
      { platform := "linux"
        arch := "x64"
        nodeVersion := "v18.0.0"
        cpu := ⟨0, 0, 0, "Unknown", 0⟩
        memory := ⟨0, 0, 0, 0, 0⟩
        disk := defaultDisk
        uptime := 0 }
    nodeRed :=
      { pid := 1
        uptime := 0
        cpu := 0
        memory := ⟨0, 0, 0, 0, 0, 0⟩
        eventLoopLag := 0 } }

/-- Module state whose cache holds `witnessSnapshot` stamped 0. -/
def cachedState : MonitorState :=
  ⟨defaultSettings, ⟨0, 0, 0⟩, none, 0, some witnessSnapshot, 0⟩

/-- Witness for C1: a call at `now = 0` against a cache stamped 0 with
`refreshInterval = 2000` hits the cache and returns the cached snapshot
unchanged. -/
theorem collect_cache_c1_witness :
    collectMetrics okEnv cachedState = (.metrics witnessSnapshot, cachedState) :=
  (collect_cache_c1.1 okEnv cachedState witnessSnapshot rfl (by norm_num [okEnv, cachedState, defaultSettings])).1

end PerfMon
